import Mathlib

/-
  Verification of the sbtc-print repository's core against its specification.

  The embedding follows src/src/index.ts (Cloudflare worker: prompt parser,
  STL mesh builder, preview estimate, and the KV-backed print-job lifecycle)
  and src/print-server/server.ts (the polling agent, an external collaborator).

  Modelling conventions:
  * JavaScript numbers are modelled as exact rationals (ℚ).  `Math.cos`,
    `Math.sin` and `Math.PI` are kept symbolic in a scalar expression type
    `Expr`, so meshes are finite lists of facets over decidable expressions.
  * JavaScript truthiness of a number (`x || d` yields `d` when `x` is 0,
    undefined or NaN) is modelled by `jsOrOpt` / `jsOr`; NaN has no rational
    counterpart and is noted where relevant.
  * The Cloudflare KV namespace is modelled as an association list from job
    ids to the stored job together with the `expirationTtl` of the last put,
    plus the JSON queue array stored under the separate `queue` key.
-/

namespace SbtcPrint

/-- Symbolic scalar expressions over exact rational constants, keeping the
transcendental operations of the source (`Math.cos`, `Math.sin`, `Math.PI`)
uninterpreted so that meshes have decidable equality. -/
inductive Expr : Type where
  | const : ℚ → Expr
  | pi : Expr
  | cos : Expr → Expr
  | sin : Expr → Expr
  | add : Expr → Expr → Expr
  | sub : Expr → Expr → Expr
  | mul : Expr → Expr → Expr
  | div : Expr → Expr → Expr
  | neg : Expr → Expr
deriving DecidableEq, Repr

instance : Add Expr := ⟨Expr.add⟩

instance : Sub Expr := ⟨Expr.sub⟩

instance : Mul Expr := ⟨Expr.mul⟩

instance : Div Expr := ⟨Expr.div⟩

instance : Neg Expr := ⟨Expr.neg⟩

/-- Embed a plain JavaScript number literal as a scalar expression. -/
def lit (q : ℚ) : Expr := Expr.const q

/-- A 3-D point or direction, as emitted into the STL `vertex` and
`facet normal` lines. -/
structure Vec3 where
  x : Expr
  y : Expr
  z : Expr
deriving DecidableEq, Repr

/-- Shorthand mirroring the `[x, y, z]` array literals of the source. -/
def vec (a b c : Expr) : Vec3 := ⟨a, b, c⟩

/-- One STL facet: the three vertices and the normal passed to the source's
`addTriangle(v1, v2, v3, normal)`. -/
structure Facet where
  v1 : Vec3
  v2 : Vec3
  v3 : Vec3
  normal : Vec3
deriving DecidableEq, Repr

/-- Mirrors `addTriangle(v1, v2, v3, normal)` pushing one facet. -/
def tri (a b c n : Vec3) : Facet := ⟨a, b, c, n⟩

/-- The vertex triple of a facet (used to compare tessellations with the
spec, which fixes surface points but not normals). -/
def triVerts (t : Facet) : Vec3 × Vec3 × Vec3 := (t.v1, t.v2, t.v3)

/-- `ShapeConfig.type` from src/src/index.ts. -/
inductive ShapeType where
  | cube
  | cylinder
  | sphere
  | cone
  | torus
  | text
  | custom
deriving DecidableEq, Repr

/-- The `units: 'mm'` literal type of the source. -/
inductive Units where
  | mm
deriving DecidableEq, Repr

/-- `ShapeConfig.dimensions` from src/src/index.ts: every key optional. -/
structure Dimensions where
  width : Option ℚ := none
  height : Option ℚ := none
  depth : Option ℚ := none
  radius : Option ℚ := none
  text : Option String := none
deriving DecidableEq, Repr

/-- `ShapeConfig` from src/src/index.ts. -/
structure ShapeConfig where
  type : ShapeType
  dimensions : Dimensions
  units : Units
deriving DecidableEq, Repr

/-- JavaScript `v || d` on an optional number field: the default is taken
when the field is `undefined` or `0` (falsy).  (NaN, also falsy in JS, has
no rational counterpart.) -/
def jsOrOpt (v : Option ℚ) (d : ℚ) : ℚ :=
  match v with
  | none => d
  | some x => if x = 0 then d else x

/-- JavaScript `a || b` on two number values (used as `radius || width/2`
in the parser). -/
def jsOr (a b : ℚ) : ℚ := if a = 0 then b else a

/-- One (ring, segment) cell of the sphere tessellation of `generateSTL`
(src/src/index.ts lines 143-161): quad corners `p1 p2 p3 p4`, normal
`n1 = p1 / r`, and a facet emitted only when `i > 0` resp. `i < rings - 1`.
All scalar arithmetic is kept at the `Expr` level. -/
def sphereCell (r : Expr) (rings segments : ℕ) (i j : ℕ) : List Facet :=
  let phi1 := lit (i : ℚ) / lit (rings : ℚ) * Expr.pi
  let phi2 := lit ((i + 1 : ℕ) : ℚ) / lit (rings : ℚ) * Expr.pi
  let theta1 := lit (j : ℚ) / lit (segments : ℚ) * Expr.pi * lit 2
  let theta2 := lit ((j + 1 : ℕ) : ℚ) / lit (segments : ℚ) * Expr.pi * lit 2
  let p1 := vec (Expr.sin phi1 * Expr.cos theta1 * r) (Expr.cos phi1 * r)
      (Expr.sin phi1 * Expr.sin theta1 * r)
  let p2 := vec (Expr.sin phi1 * Expr.cos theta2 * r) (Expr.cos phi1 * r)
      (Expr.sin phi1 * Expr.sin theta2 * r)
  let p3 := vec (Expr.sin phi2 * Expr.cos theta2 * r) (Expr.cos phi2 * r)
      (Expr.sin phi2 * Expr.sin theta2 * r)
  let p4 := vec (Expr.sin phi2 * Expr.cos theta1 * r) (Expr.cos phi2 * r)
      (Expr.sin phi2 * Expr.sin theta1 * r)
  let n1 := vec (p1.x / r) (p1.y / r) (p1.z / r)
  (if 0 < i then [tri p1 p2 p3 n1] else []) ++
    (if i < rings - 1 then [tri p1 p3 p4 n1] else [])

/-- `getPoint(u, v)` of the torus branch of `generateSTL`
(src/src/index.ts lines 192-196). -/
def getPoint (bigR r : Expr) (u v : Expr) : Vec3 :=
  vec ((bigR + r * Expr.cos v) * Expr.cos u) (r * Expr.sin v)
    ((bigR + r * Expr.cos v) * Expr.sin u)

/-- One (ring, segment) cell of the torus tessellation of `generateSTL`
(src/src/index.ts lines 184-206): the quad at angles `u1 u2 / v1 v2` split
into the two facets `(p1, p2, p3)` and `(p1, p3, p4)`. -/
def torusCell (bigR r : Expr) (rings segments : ℕ) (i j : ℕ) : List Facet :=
  let u1 := lit (i : ℚ) / lit (rings : ℚ) * Expr.pi * lit 2
  let u2 := lit ((i + 1 : ℕ) : ℚ) / lit (rings : ℚ) * Expr.pi * lit 2
  let v1 := lit (j : ℚ) / lit (segments : ℚ) * Expr.pi * lit 2
  let v2 := lit ((j + 1 : ℕ) : ℚ) / lit (segments : ℚ) * Expr.pi * lit 2
  let p1 := getPoint bigR r u1 v1
  let p2 := getPoint bigR r u2 v1
  let p3 := getPoint bigR r u2 v2
  let p4 := getPoint bigR r u1 v2
  [tri p1 p2 p3 (vec (Expr.cos u1) (lit 0) (Expr.sin u1)),
    tri p1 p3 p4 (vec (Expr.cos u1) (lit 0) (Expr.sin u1))]

/-- `generateSTL` from src/src/index.ts (lines 83-210), at the level of the
facet list.  The source serializes exactly these facets, in this order,
between the fixed `solid model` / `endsolid model` header and footer; the
textual framing adds no geometric content, so claims about the mesh are
stated on the facet list.  Shape kinds other than the five primitives fall
through every `else if` and leave the facet list empty. -/
def generateSTL (shape : ShapeConfig) : List Facet :=
  match shape.type with
  | .cube =>
      let w := lit (jsOrOpt shape.dimensions.width 50) / lit 2
      let h := lit (jsOrOpt shape.dimensions.height 50) / lit 2
      let d := lit (jsOrOpt shape.dimensions.depth 50) / lit 2
      [tri (vec (-w) (-h) (-d)) (vec w (-h) (-d)) (vec w (-h) d) (vec (lit 0) (lit (-1)) (lit 0)),
        tri (vec (-w) (-h) (-d)) (vec w (-h) d) (vec (-w) (-h) d) (vec (lit 0) (lit (-1)) (lit 0)),
        tri (vec (-w) h (-d)) (vec w h d) (vec w h (-d)) (vec (lit 0) (lit 1) (lit 0)),
        tri (vec (-w) h (-d)) (vec (-w) h d) (vec w h d) (vec (lit 0) (lit 1) (lit 0)),
        tri (vec (-w) (-h) d) (vec w (-h) d) (vec w h d) (vec (lit 0) (lit 0) (lit 1)),
        tri (vec (-w) (-h) d) (vec w h d) (vec (-w) h d) (vec (lit 0) (lit 0) (lit 1)),
        tri (vec (-w) (-h) (-d)) (vec w h (-d)) (vec w (-h) (-d)) (vec (lit 0) (lit 0) (lit (-1))),
        tri (vec (-w) (-h) (-d)) (vec (-w) h (-d)) (vec w h (-d)) (vec (lit 0) (lit 0) (lit (-1))),
        tri (vec w (-h) (-d)) (vec w h (-d)) (vec w h d) (vec (lit 1) (lit 0) (lit 0)),
        tri (vec w (-h) (-d)) (vec w h d) (vec w (-h) d) (vec (lit 1) (lit 0) (lit 0)),
        tri (vec (-w) (-h) (-d)) (vec (-w) h d) (vec (-w) h (-d)) (vec (lit (-1)) (lit 0) (lit 0)),
        tri (vec (-w) (-h) (-d)) (vec (-w) (-h) d) (vec (-w) h d) (vec (lit (-1)) (lit 0) (lit 0))]
  | .cylinder =>
      let r := lit (jsOrOpt shape.dimensions.radius 25)
      let h := lit (jsOrOpt shape.dimensions.height 50) / lit 2
      let segments := 24
      (List.range segments).flatMap fun i =>
        let a1 := lit (i : ℚ) / lit (segments : ℚ) * Expr.pi * lit 2
        let a2 := lit ((i + 1 : ℕ) : ℚ) / lit (segments : ℚ) * Expr.pi * lit 2
        let x1 := Expr.cos a1 * r
        let z1 := Expr.sin a1 * r
        let x2 := Expr.cos a2 * r
        let z2 := Expr.sin a2 * r
        [tri (vec x1 (-h) z1) (vec x2 (-h) z2) (vec x2 h z2)
            (vec (Expr.cos a1) (lit 0) (Expr.sin a1)),
          tri (vec x1 (-h) z1) (vec x2 h z2) (vec x1 h z1)
            (vec (Expr.cos a1) (lit 0) (Expr.sin a1)),
          tri (vec (lit 0) h (lit 0)) (vec x1 h z1) (vec x2 h z2)
            (vec (lit 0) (lit 1) (lit 0)),
          tri (vec (lit 0) (-h) (lit 0)) (vec x2 (-h) z2) (vec x1 (-h) z1)
            (vec (lit 0) (lit (-1)) (lit 0))]
  | .sphere =>
      let r := lit (jsOrOpt shape.dimensions.radius 25)
      let segments := 16
      let rings := 12
      (List.range rings).flatMap fun i =>
        (List.range segments).flatMap fun j =>
          sphereCell r rings segments i j
  | .cone =>
      let r := lit (jsOrOpt shape.dimensions.radius 25)
      let h := lit (jsOrOpt shape.dimensions.height 50)
      let segments := 24
      (List.range segments).flatMap fun i =>
        let a1 := lit (i : ℚ) / lit (segments : ℚ) * Expr.pi * lit 2
        let a2 := lit ((i + 1 : ℕ) : ℚ) / lit (segments : ℚ) * Expr.pi * lit 2
        let x1 := Expr.cos a1 * r
        let z1 := Expr.sin a1 * r
        let x2 := Expr.cos a2 * r
        let z2 := Expr.sin a2 * r
        [tri (vec x1 (lit 0) z1) (vec x2 (lit 0) z2) (vec (lit 0) h (lit 0))
            (vec (Expr.cos a1) (lit 0.5) (Expr.sin a1)),
          tri (vec (lit 0) (lit 0) (lit 0)) (vec x2 (lit 0) z2) (vec x1 (lit 0) z1)
            (vec (lit 0) (lit (-1)) (lit 0))]
  | .torus =>
      let bigR := lit (jsOrOpt shape.dimensions.radius 30)
      let r := lit (jsOrOpt shape.dimensions.width 10) / lit 2
      let segments := 24
      let rings := 16
      (List.range rings).flatMap fun i =>
        (List.range segments).flatMap fun j =>
          torusCell bigR r rings segments i j
  | .text => []
  | .custom => []

/-- Facet count of `generateSTL` per shape kind (independent of the
dimension values). -/
def facetCount : ShapeType → ℕ
  | .cube => 12
  | .cylinder => 96
  | .sphere => 352
  | .cone => 48
  | .torus => 768
  | .text => 0
  | .custom => 0

set_option maxRecDepth 20000 in
theorem generateSTL_length (t : ShapeType) (d : Dimensions) :
    (generateSTL { type := t, dimensions := d, units := .mm }).length = facetCount t := by
  cases t <;> rfl

/-! ### The prompt parser (`parsePrompt`, src/src/index.ts lines 39-80)

The three JavaScript regular expressions of the source are hand-compiled
into matchers over `List Char`.  For these particular patterns the greedy
`\d+` / `\s*` repetitions never need to backtrack (the atom following each
repetition can never match a digit resp. a whitespace character), so maximal
munch is exact; the alternatives of `(?:mm|millimeter)` and of
`(?:\s*x\s*|\s*by\s*)` are mutually exclusive after their first characters,
and the optional unit group backtracks to the empty alternative via
`Option.orElse`.  JavaScript `\s` / `\d` / `toLowerCase` are modelled by
`Char.isWhitespace` / `Char.isDigit` / `Char.toLower` (exact on ASCII input).
-/

/-- `parseInt` on a run of decimal digits. -/
def digitsToNat (ds : List Char) : ℕ :=
  ds.foldl (fun n c => n * 10 + (c.toNat - '0'.toNat)) 0

/-- Literal string prefix test. -/
def isPrefixList : List Char → List Char → Bool
  | [], _ => true
  | _ :: _, [] => false
  | a :: as, b :: bs => a = b && isPrefixList as bs

/-- JavaScript `haystack.includes(needle)`. -/
def containsSub (needle : List Char) : List Char → Bool
  | [] => isPrefixList needle []
  | c :: rest => isPrefixList needle (c :: rest) || containsSub needle rest

/-- The unit alternation `(?:mm|millimeter)`: alternatives tried in order;
they are mutually exclusive, so at most one can match at a position. -/
def matchUnit (s : List Char) : Option (List Char) :=
  if isPrefixList ['m', 'm'] s then some (s.drop 2)
  else if isPrefixList ['m', 'i', 'l', 'l', 'i', 'm', 'e', 't', 'e', 'r'] s then some (s.drop 10)
  else none

/-- The separator alternation `(?:\s*x\s*|\s*by\s*)`: both alternatives open
with `\s*`, then differ on their first literal character. -/
def matchSep (s : List Char) : Option (List Char) :=
  let t := s.dropWhile Char.isWhitespace
  match t with
  | 'x' :: rest => some (rest.dropWhile Char.isWhitespace)
  | 'b' :: 'y' :: rest => some (rest.dropWhile Char.isWhitespace)
  | _ => none

/-- The subpattern `\s*(?:mm|millimeter)?(?:\s*x\s*|\s*by\s*)(\d+)` shared by
the two separator positions of the dimensions regex; returns the captured
number and the remaining input. -/
def unitSepNum (s : List Char) : Option (ℕ × List Char) :=
  let r := s.dropWhile Char.isWhitespace
  let go : List Char → Option (ℕ × List Char) := fun t =>
    match matchSep t with
    | none => none
    | some t2 =>
        let ds := t2.takeWhile Char.isDigit
        if ds.isEmpty then none else some (digitsToNat ds, t2.drop ds.length)
  match matchUnit r with
  | some r2 => (go r2).orElse fun _ => go r
  | none => go r

/-- The dimensions regex
`/(\d+)\s*(?:mm|millimeter)?(?:\s*x\s*|\s*by\s*)(\d+)(?:\s*(?:mm|millimeter)?(?:\s*x\s*|\s*by\s*)(\d+))?/`
anchored at the current position: captures one to three numbers. -/
def matchDimAt (s : List Char) : Option (ℕ × ℕ × Option ℕ) :=
  let ds := s.takeWhile Char.isDigit
  if ds.isEmpty then none
  else
    match unitSepNum (s.drop ds.length) with
    | none => none
    | some (n2, rest2) =>
        match unitSepNum rest2 with
        | some (n3, _) => some (digitsToNat ds, n2, some n3)
        | none => some (digitsToNat ds, n2, none)

/-- The radius regex `/(\d+)\s*(?:mm|millimeter)?\s*radius/` anchored at the
current position. -/
def matchRadiusAt (s : List Char) : Option ℕ :=
  let ds := s.takeWhile Char.isDigit
  if ds.isEmpty then none
  else
    let r := (s.drop ds.length).dropWhile Char.isWhitespace
    let tryTail : List Char → Option ℕ := fun t =>
      if isPrefixList ['r', 'a', 'd', 'i', 'u', 's'] (t.dropWhile Char.isWhitespace) then
        some (digitsToNat ds)
      else none
    match matchUnit r with
    | some r2 => (tryTail r2).orElse fun _ => tryTail r
    | none => tryTail r

/-- The size regex `/(\d+)\s*(?:mm|millimeter)/` anchored at the current
position. -/
def matchSizeAt (s : List Char) : Option ℕ :=
  let ds := s.takeWhile Char.isDigit
  if ds.isEmpty then none
  else
    let r := (s.drop ds.length).dropWhile Char.isWhitespace
    if (matchUnit r).isSome then some (digitsToNat ds) else none

/-- Leftmost match: JavaScript `String.match` tries successive start
positions left to right and returns the first success. -/
def firstSome {α : Type} (f : List Char → Option α) : List Char → Option α
  | [] => f []
  | c :: rest => (f (c :: rest)).orElse fun _ => firstSome f rest

/-- `prompt.toLowerCase()` at the character-list level. -/
def lowerChars (s : String) : List Char := s.data.map Char.toLower

/-- `parsePrompt` from src/src/index.ts (lines 39-80). -/
def parsePrompt (prompt : String) : ShapeConfig :=
  let lower := lowerChars prompt
  let dims0 : ℚ × ℚ × ℚ × ℚ :=
    match firstSome matchDimAt lower with
    | some (a, b, copt) =>
        ((a : ℚ), (b : ℚ), (match copt with | some cc => (cc : ℚ) | none => (a : ℚ)), 25)
    | none =>
        match firstSome matchRadiusAt lower with
        | some r => ((r : ℚ) * 2, (r : ℚ) * 2, (r : ℚ) * 2, (r : ℚ))
        | none =>
            match firstSome matchSizeAt lower with
            | some n => ((n : ℚ), (n : ℚ), (n : ℚ), (n : ℚ) / 2)
            | none => (50, 50, 50, 25)
  let width := dims0.1
  let height := dims0.2.1
  let depth := dims0.2.2.1
  let radius := dims0.2.2.2
  if containsSub "sphere".data lower || containsSub "ball".data lower ||
      containsSub "orb".data lower then
    { type := .sphere, dimensions := { radius := some radius }, units := .mm }
  else if containsSub "cylinder".data lower || containsSub "tube".data lower ||
      containsSub "pipe".data lower || containsSub "rod".data lower then
    { type := .cylinder,
      dimensions := { radius := some (jsOr radius (width / 2)), height := some height },
      units := .mm }
  else if containsSub "cone".data lower || containsSub "pyramid".data lower then
    { type := .cone,
      dimensions := { radius := some (jsOr radius (width / 2)), height := some height },
      units := .mm }
  else if containsSub "donut".data lower || containsSub "torus".data lower ||
      containsSub "ring".data lower then
    { type := .torus, dimensions := { radius := some (jsOr radius 30), width := some 10 },
      units := .mm }
  else if containsSub "cube".data lower || containsSub "box".data lower ||
      containsSub "block".data lower || containsSub "square".data lower then
    { type := .cube,
      dimensions := { width := some width, height := some height, depth := some depth },
      units := .mm }
  else
    { type := .cube,
      dimensions := { width := some width, height := some height, depth := some depth },
      units := .mm }

/-! ### The job lifecycle over Cloudflare KV (src/src/index.ts lines 833-988)

The KV namespace `PRINT_QUEUE` holds one JSON document per job under
`job:<id>` and the queue array under the separate key `queue`.  The model
keeps the two key spaces apart: an association list from job id to the
stored `PrintJob` together with the `expirationTtl` passed to the last
`put` on that key (`none` when the source's `put` passes no TTL — in
Cloudflare KV such a put replaces the document without an expiration), and
the queue as a list of ids.  Timestamps (`new Date().toISOString()`) and
transaction ids are opaque strings supplied by the caller. -/

/-- `status` field of `PrintJob` (src/src/index.ts line 15). -/
inductive Status where
  | pending_payment
  | paid
  | printing
  | completed
  | failed
deriving DecidableEq, Repr

/-- `PrintJob` from src/src/index.ts (lines 10-20); `stlData` is kept at
the facet-list level of `generateSTL`. -/
structure PrintJob where
  id : String
  prompt : String
  shape : ShapeConfig
  stlData : List Facet
  status : Status
  paymentTxId : Option String := none
  createdAt : String
  paidAt : Option String := none
  printedAt : Option String := none
deriving DecidableEq, Repr

/-- A stored job document together with the `expirationTtl` of the `put`
that last wrote it. -/
abbrev Entry := PrintJob × Option ℕ

/-- Association-list update: replace the value under `k`, or append. -/
def putAssoc : List (String × Entry) → String → Entry → List (String × Entry)
  | [], k, v => [(k, v)]
  | (k', v') :: rest, k, v =>
      if k' = k then (k, v) :: rest else (k', v') :: putAssoc rest k v

/-- Association-list lookup. -/
def getAssoc : List (String × Entry) → String → Option Entry
  | [], _ => none
  | (k', v') :: rest, k => if k' = k then some v' else getAssoc rest k

/-- The `PRINT_QUEUE` KV namespace: job documents plus the queue array. -/
structure KV where
  jobs : List (String × Entry)
  queue : List String
deriving DecidableEq

/-- The store before any request: no documents, `queue` key absent (the
source reads it as `'[]'`). -/
def emptyKV : KV := { jobs := [], queue := [] }

/-- Status of the job stored under `id`, if any. -/
def statusOf (s : KV) (id : String) : Option Status :=
  (getAssoc s.jobs id).map fun e => e.1.status

/-- TTL recorded for the job document under `id`, if the document exists. -/
def ttlOf (s : KV) (id : String) : Option (Option ℕ) :=
  (getAssoc s.jobs id).map fun e => e.2

/-- `POST /api/order` (src/src/index.ts lines 833-863): builds the shape
and mesh from the prompt, stores the job as `pending_payment` with
`expirationTtl: 86400 * 7`, and answers 402.  The random `orderId` is a
caller-supplied opaque string here. -/
def createOrder (s : KV) (orderId prompt now : String) : KV :=
  let shape := parsePrompt prompt
  let stl := generateSTL shape
  { s with
    jobs := putAssoc s.jobs orderId
      ({ id := orderId, prompt := prompt, shape := shape, stlData := stl,
         status := .pending_payment, createdAt := now }, some (86400 * 7)) }

/-- Result of `POST /api/order/:id/confirm`. -/
inductive ConfirmResult where
  | notFound
  | success (status : Status) (position : ℕ)
deriving DecidableEq, Repr

/-- `POST /api/order/:id/confirm` (src/src/index.ts lines 866-888): 404
when the document is absent; otherwise unconditionally sets
`status = 'paid'`, `paymentTxId`, `paidAt`, re-puts the document (with no
`expirationTtl`), and appends the id to the queue array.  There is no
check of the current status. -/
def confirmOrder (s : KV) (orderId txId now : String) : KV × ConfirmResult :=
  match getAssoc s.jobs orderId with
  | none => (s, .notFound)
  | some (job, _) =>
      let job2 := { job with status := .paid, paymentTxId := some txId, paidAt := some now }
      let s1 : KV := { s with jobs := putAssoc s.jobs orderId (job2, none) }
      let q2 := s1.queue ++ [orderId]
      ({ s1 with queue := q2 }, .success .paid q2.length)

/-- `POST /api/order/:id/printing` (src/src/index.ts lines 953-966):
unconditionally sets `status = 'printing'`; the queue is untouched. -/
def markPrinting (s : KV) (orderId : String) : KV × Bool :=
  match getAssoc s.jobs orderId with
  | none => (s, false)
  | some (job, _) =>
      ({ s with jobs := putAssoc s.jobs orderId ({ job with status := .printing }, none) }, true)

/-- `POST /api/order/:id/complete` (src/src/index.ts lines 969-988):
unconditionally sets `status = 'completed'` and `printedAt`, then filters
every occurrence of the id out of the queue array. -/
def completeOrder (s : KV) (orderId now : String) : KV × Bool :=
  match getAssoc s.jobs orderId with
  | none => (s, false)
  | some (job, _) =>
      let job2 := { job with status := .completed, printedAt := some now }
      let s1 : KV := { s with jobs := putAssoc s.jobs orderId (job2, none) }
      ({ s1 with queue := s1.queue.filter fun i => decide (i ≠ orderId) }, true)

/-- A lifecycle request.  The source implements create, confirm, printing
and complete; the `fail(reason)` event of the specification has no
endpoint anywhere in the repository. -/
inductive Op where
  | create (orderId prompt now : String)
  | confirm (orderId txId now : String)
  | printing (orderId : String)
  | complete (orderId now : String)
deriving DecidableEq, Repr

/-- State reached by one request (responses dropped). -/
def execOp (s : KV) : Op → KV
  | .create id p t => createOrder s id p t
  | .confirm id tx t => (confirmOrder s id tx t).1
  | .printing id => (markPrinting s id).1
  | .complete id t => (completeOrder s id t).1

/-- State reached by a request sequence. -/
def exec (s : KV) : List Op → KV
  | [] => s
  | op :: ops => exec (execOp s op) ops

/-- An operation valid for the current state per the specification's
transition table (§4.2): `create` with a fresh id yields
`pending_payment`; `confirmPayment` from `pending_payment`;
`beginPrinting` from `paid`; `complete` from `printing`. -/
def validOp (s : KV) : Op → Bool
  | .create id _ _ => (getAssoc s.jobs id).isNone
  | .confirm id _ _ => decide (statusOf s id = some .pending_payment)
  | .printing id => decide (statusOf s id = some .paid)
  | .complete id _ => decide (statusOf s id = some .printing)

/-- A request sequence in which every operation is valid when it runs. -/
def validSeq (s : KV) : List Op → Bool
  | [] => true
  | op :: ops => validOp s op && validSeq (execOp s op) ops

/-- The queue invariant of the specification (§3 Queue): an id is queued
iff its job is `paid` or `printing`, and never more than once. -/
def queueOK (s : KV) : Prop :=
  s.queue.Nodup ∧
    ∀ id : String, id ∈ s.queue ↔
      (statusOf s id = some .paid ∨ statusOf s id = some .printing)

theorem getAssoc_putAssoc_self (l : List (String × Entry)) (k : String) (v : Entry) :
    getAssoc (putAssoc l k v) k = some v := by
  induction l with
  | nil => simp [putAssoc, getAssoc]
  | cons e rest ih =>
      obtain ⟨k0, v0⟩ := e
      by_cases h : k0 = k
      · simp [putAssoc, getAssoc, h]
      · simp [putAssoc, getAssoc, h, ih]

theorem getAssoc_putAssoc_ne (l : List (String × Entry)) (k k' : String) (v : Entry)
    (h : k' ≠ k) : getAssoc (putAssoc l k v) k' = getAssoc l k' := by
  induction l with
  | nil => simp [putAssoc, getAssoc, Ne.symm h]
  | cons e rest ih =>
      obtain ⟨k0, v0⟩ := e
      by_cases h0 : k0 = k
      · subst h0
        simp [putAssoc, getAssoc, Ne.symm h]
      · simp only [putAssoc, if_neg h0, getAssoc]
        by_cases h1 : k0 = k'
        · simp [h1]
        · simp [h1, ih]

theorem statusOf_eq_some (s : KV) (id : String) (st : Status)
    (h : statusOf s id = some st) :
    ∃ job ttl, getAssoc s.jobs id = some (job, ttl) ∧ job.status = st := by
  unfold statusOf at h
  cases hg : getAssoc s.jobs id with
  | none => rw [hg] at h; simp at h
  | some e =>
      rw [hg] at h
      exact ⟨e.1, e.2, by simp [hg], by simpa using h⟩

theorem createOrder_queue (s : KV) (id p t : String) :
    (createOrder s id p t).queue = s.queue := rfl

theorem statusOf_createOrder_self (s : KV) (id p t : String) :
    statusOf (createOrder s id p t) id = some .pending_payment := by
  simp [createOrder, statusOf, getAssoc_putAssoc_self]

theorem statusOf_createOrder_ne (s : KV) (id p t id' : String) (h : id' ≠ id) :
    statusOf (createOrder s id p t) id' = statusOf s id' := by
  simp [createOrder, statusOf, getAssoc_putAssoc_ne _ _ _ _ h]

theorem confirmOrder_queue (s : KV) (id tx t : String) (job : PrintJob) (ttl : Option ℕ)
    (hg : getAssoc s.jobs id = some (job, ttl)) :
    (confirmOrder s id tx t).1.queue = s.queue ++ [id] := by
  simp [confirmOrder, hg]

theorem statusOf_confirmOrder_self (s : KV) (id tx t : String) (job : PrintJob)
    (ttl : Option ℕ) (hg : getAssoc s.jobs id = some (job, ttl)) :
    statusOf (confirmOrder s id tx t).1 id = some .paid := by
  simp [confirmOrder, hg, statusOf, getAssoc_putAssoc_self]

theorem statusOf_confirmOrder_ne (s : KV) (id tx t id' : String) (h : id' ≠ id) :
    statusOf (confirmOrder s id tx t).1 id' = statusOf s id' := by
  cases hg : getAssoc s.jobs id with
  | none => simp [confirmOrder, hg]
  | some e =>
      obtain ⟨job, ttl⟩ := e
      simp [confirmOrder, hg, statusOf, getAssoc_putAssoc_ne _ _ _ _ h]

theorem markPrinting_queue (s : KV) (id : String) :
    (markPrinting s id).1.queue = s.queue := by
  cases hg : getAssoc s.jobs id with
  | none => simp [markPrinting, hg]
  | some e =>
      obtain ⟨job, ttl⟩ := e
      simp [markPrinting, hg]

theorem statusOf_markPrinting_self (s : KV) (id : String) (job : PrintJob)
    (ttl : Option ℕ) (hg : getAssoc s.jobs id = some (job, ttl)) :
    statusOf (markPrinting s id).1 id = some .printing := by
  simp [markPrinting, hg, statusOf, getAssoc_putAssoc_self]

theorem statusOf_markPrinting_ne (s : KV) (id id' : String) (h : id' ≠ id) :
    statusOf (markPrinting s id).1 id' = statusOf s id' := by
  cases hg : getAssoc s.jobs id with
  | none => simp [markPrinting, hg]
  | some e =>
      obtain ⟨job, ttl⟩ := e
      simp [markPrinting, hg, statusOf, getAssoc_putAssoc_ne _ _ _ _ h]

theorem completeOrder_queue (s : KV) (id t : String) (job : PrintJob) (ttl : Option ℕ)
    (hg : getAssoc s.jobs id = some (job, ttl)) :
    (completeOrder s id t).1.queue = s.queue.filter fun i => decide (i ≠ id) := by
  simp [completeOrder, hg]

theorem statusOf_completeOrder_self (s : KV) (id t : String) (job : PrintJob)
    (ttl : Option ℕ) (hg : getAssoc s.jobs id = some (job, ttl)) :
    statusOf (completeOrder s id t).1 id = some .completed := by
  simp [completeOrder, hg, statusOf, getAssoc_putAssoc_self]

theorem statusOf_completeOrder_ne (s : KV) (id t id' : String) (h : id' ≠ id) :
    statusOf (completeOrder s id t).1 id' = statusOf s id' := by
  cases hg : getAssoc s.jobs id with
  | none => simp [completeOrder, hg]
  | some e =>
      obtain ⟨job, ttl⟩ := e
      simp [completeOrder, hg, statusOf, getAssoc_putAssoc_ne _ _ _ _ h]

theorem queueOK_emptyKV : queueOK emptyKV := by
  constructor
  · simp [emptyKV]
  · intro id
    simp [emptyKV, statusOf, getAssoc]

theorem queueOK_execOp (s : KV) (op : Op) (hs : queueOK s) (hv : validOp s op = true) :
    queueOK (execOp s op) := by
  obtain ⟨hnd, hmem⟩ := hs
  cases op with
  | create id p t =>
      simp only [validOp, Option.isNone_iff_eq_none] at hv
      simp only [execOp]
      refine ⟨by rw [createOrder_queue]; exact hnd, fun id' => ?_⟩
      rw [createOrder_queue]
      by_cases h : id' = id
      · subst h
        have hnotin : id' ∉ s.queue := by
          intro hin
          rcases (hmem id').mp hin with h1 | h1 <;> simp [statusOf, hv] at h1
        rw [statusOf_createOrder_self]
        constructor
        · intro hin; exact absurd hin hnotin
        · rintro (h1 | h1) <;> simp at h1
      · rw [statusOf_createOrder_ne s id p t id' h]
        exact hmem id'
  | confirm id tx t =>
      simp only [validOp, decide_eq_true_eq] at hv
      obtain ⟨job, ttl, hg, hstatus⟩ := statusOf_eq_some s id _ hv
      have hnotin : id ∉ s.queue := by
        intro hin
        rcases (hmem id).mp hin with h1 | h1 <;> rw [hv] at h1 <;> simp at h1
      simp only [execOp]
      constructor
      · rw [confirmOrder_queue s id tx t job ttl hg, List.nodup_append]
        refine ⟨hnd, List.nodup_singleton id, ?_⟩
        intro x hx hx2
        simp only [List.mem_singleton] at hx2
        subst hx2
        exact hnotin hx
      · intro id'
        rw [confirmOrder_queue s id tx t job ttl hg]
        by_cases h : id' = id
        · subst h
          rw [statusOf_confirmOrder_self s id' tx t job ttl hg]
          simp
        · rw [statusOf_confirmOrder_ne s id tx t id' h]
          rw [show id' ∈ s.queue ++ [id] ↔ id' ∈ s.queue by simp [h]]
          exact hmem id'
  | printing id =>
      simp only [validOp, decide_eq_true_eq] at hv
      obtain ⟨job, ttl, hg, hstatus⟩ := statusOf_eq_some s id _ hv
      simp only [execOp]
      refine ⟨by rw [markPrinting_queue]; exact hnd, fun id' => ?_⟩
      rw [markPrinting_queue]
      by_cases h : id' = id
      · subst h
        rw [statusOf_markPrinting_self s id' job ttl hg]
        have hin : id' ∈ s.queue := (hmem id').mpr (Or.inl hv)
        simp [hin]
      · rw [statusOf_markPrinting_ne s id id' h]
        exact hmem id'
  | complete id t =>
      simp only [validOp, decide_eq_true_eq] at hv
      obtain ⟨job, ttl, hg, hstatus⟩ := statusOf_eq_some s id _ hv
      simp only [execOp]
      constructor
      · rw [completeOrder_queue s id t job ttl hg]
        exact hnd.filter _
      · intro id'
        rw [completeOrder_queue s id t job ttl hg]
        by_cases h : id' = id
        · subst h
          rw [statusOf_completeOrder_self s id' t job ttl hg]
          simp [List.mem_filter]
        · rw [statusOf_completeOrder_ne s id t id' h]
          rw [show (id' ∈ s.queue.filter fun i => decide (i ≠ id)) ↔ id' ∈ s.queue by
            simp [List.mem_filter, h]]
          exact hmem id'

theorem queueOK_exec (ops : List Op) :
    ∀ s : KV, queueOK s → validSeq s ops = true → queueOK (exec s ops) := by
  induction ops with
  | nil => intro s h _; exact h
  | cons op rest ih =>
      intro s h hv
      rw [validSeq, Bool.and_eq_true] at hv
      exact ih (execOp s op) (queueOK_execOp s op h hv.1) hv.2

/-! ### The preview estimate (src/src/index.ts lines 822-823) -/

/-- JavaScript `Math.round`: round half toward positive infinity. -/
def jsRound (q : ℚ) : ℤ := Int.floor (q + 1 / 2)

/-- `Math.max(5, Math.round(volumeCm3 * 1.5))` from `POST /api/preview`
(src/src/index.ts line 823). -/
def estimatedMinutes (volumeCm3 : ℚ) : ℤ := max 5 (jsRound (volumeCm3 * 1.5))

/-! ### Spec-side tessellation definitions (for comparison in C8) -/

/-- The torus surface point stated from the specification's words (§4.1):
`((R + r·cos v)·cos u, r·sin v, (R + r·cos v)·sin u)`, to be compared with
the source's `getPoint`. -/
def torusSpecSurfacePoint (bigR r : Expr) (u v : Expr) : Vec3 :=
  vec ((bigR + r * Expr.cos v) * Expr.cos u) (r * Expr.sin v)
    ((bigR + r * Expr.cos v) * Expr.sin u)

/-- The vertex triples the specification prescribes for torus quad cell
(i, j): 16 rings around the major circle × 24 segments around the tube at
uniform angles, each quad split into the two triangles
(P i j, P (i+1) j, P (i+1) (j+1)) and (P i j, P (i+1) (j+1), P i (j+1)) of
parametric surface points.  Stated from the specification's words. -/
def torusSpecCellVerts (bigR r : Expr) (i j : ℕ) : List (Vec3 × Vec3 × Vec3) :=
  let u : ℕ → Expr := fun k => lit (k : ℚ) / lit 16 * Expr.pi * lit 2
  let v : ℕ → Expr := fun k => lit (k : ℚ) / lit 24 * Expr.pi * lit 2
  let point : ℕ → ℕ → Vec3 := fun a b => torusSpecSurfacePoint bigR r (u a) (v b)
  [(point i j, point (i + 1) j, point (i + 1) (j + 1)),
    (point i j, point (i + 1) (j + 1), point i (j + 1))]

theorem sphereCell_length (r : Expr) (i j : ℕ) (hi : i < 12) :
    (sphereCell r 12 16 i j).length = if i = 0 ∨ i = 11 then 1 else 2 := by
  by_cases h0 : i = 0
  · subst h0; simp [sphereCell]
  · by_cases h1 : i = 11
    · subst h1; norm_num [sphereCell]
    · have ha : 0 < i := by omega
      have hb : i < 12 - 1 := by omega
      simp [sphereCell, ha, hb, h0, h1]

theorem torusCell_verts (bigR r : Expr) (i j : ℕ) :
    (torusCell bigR r 16 24 i j).map triVerts = torusSpecCellVerts bigR r i j := by
  simp [torusCell, torusSpecCellVerts, getPoint, torusSpecSurfacePoint, triVerts, tri, vec,
    Nat.cast_ofNat]

/-- The shape keywords tested by the `if` chain of `parsePrompt`, in source
order; `parsePrompt` reaches its default cube only when none occurs in the
lowercased prompt. -/
def anyShapeKeyword (l : List Char) : Bool :=
  containsSub "sphere".data l || containsSub "ball".data l || containsSub "orb".data l ||
    containsSub "cylinder".data l || containsSub "tube".data l || containsSub "pipe".data l ||
    containsSub "rod".data l || containsSub "cone".data l || containsSub "pyramid".data l ||
    containsSub "donut".data l || containsSub "torus".data l || containsSub "ring".data l ||
    containsSub "cube".data l || containsSub "box".data l || containsSub "block".data l ||
    containsSub "square".data l

/-! ### Claim theorems -/

/-- C1: the claim says confirming an already-`paid` job fails with
`InvalidTransition` and leaves the job and queue unchanged.  The code has
no status check: after job "a" is paid (first conjunct), a second confirm
succeeds with position 2, leaves the queue holding "a" twice, and
overwrites `paymentTxId` and `paidAt` with the new values. -/
theorem c1_confirm_on_paid_diverges :
    statusOf (confirmOrder (createOrder emptyKV "a" "cube" "t0") "a" "tx1" "t1").1 "a" =
      some .paid ∧
    (confirmOrder (confirmOrder (createOrder emptyKV "a" "cube" "t0") "a" "tx1" "t1").1
        "a" "tx2" "t2").2 = ConfirmResult.success .paid 2 ∧
    (confirmOrder (confirmOrder (createOrder emptyKV "a" "cube" "t0") "a" "tx1" "t1").1
        "a" "tx2" "t2").1.queue = ["a", "a"] ∧
    ((getAssoc (confirmOrder (confirmOrder (createOrder emptyKV "a" "cube" "t0") "a" "tx1"
        "t1").1 "a" "tx2" "t2").1.jobs "a").map fun e => e.1.paymentTxId) =
      some (some "tx2") ∧
    ((getAssoc (confirmOrder (confirmOrder (createOrder emptyKV "a" "cube" "t0") "a" "tx1"
        "t1").1 "a" "tx2" "t2").1.jobs "a").map fun e => e.1.paidAt) =
      some (some "t2") := by
  decide

/-- C2 counterexample: the claim quantifies over every sequence of
lifecycle operations; the implemented sequence create "a"; confirm "a";
confirm "a" leaves the queue holding "a" twice (status `paid`), violating
"each id is enqueued exactly once". -/
theorem c2_counterexample :
    (exec emptyKV [Op.create "a" "cube" "t0", Op.confirm "a" "tx1" "t1",
        Op.confirm "a" "tx2" "t2"]).queue = ["a", "a"] ∧
    statusOf (exec emptyKV [Op.create "a" "cube" "t0", Op.confirm "a" "tx1" "t1",
        Op.confirm "a" "tx2" "t2"]) "a" = some .paid ∧
    ¬ (exec emptyKV [Op.create "a" "cube" "t0", Op.confirm "a" "tx1" "t1",
        Op.confirm "a" "tx2" "t2"]).queue.Nodup := by
  decide

/-- C2 (amended): restricted to request sequences that are valid per the
specification's transition table (create with a fresh id, confirmPayment
from `pending_payment`, beginPrinting from `paid`, complete from
`printing`; the spec's `fail` event has no endpoint in the code), the
queue invariant holds from the empty store: an id is queued iff its job's
status is `paid` or `printing`, with no duplicate entries (the `paid`
transition is the only operation that appends). -/
theorem c2_queue_invariant_valid (ops : List Op) (h : validSeq emptyKV ops = true) :
    (exec emptyKV ops).queue.Nodup ∧
      ∀ id : String, id ∈ (exec emptyKV ops).queue ↔
        (statusOf (exec emptyKV ops) id = some .paid ∨
          statusOf (exec emptyKV ops) id = some .printing) :=
  queueOK_exec ops emptyKV queueOK_emptyKV h

theorem c2_queue_invariant_valid_witness :
    (exec emptyKV [Op.create "b" "cube" "t0", Op.confirm "b" "tx1" "t1",
        Op.printing "b"]).queue.Nodup ∧
      ∀ id : String, id ∈ (exec emptyKV [Op.create "b" "cube" "t0",
          Op.confirm "b" "tx1" "t1", Op.printing "b"]).queue ↔
        (statusOf (exec emptyKV [Op.create "b" "cube" "t0", Op.confirm "b" "tx1" "t1",
            Op.printing "b"]) id = some .paid ∨
          statusOf (exec emptyKV [Op.create "b" "cube" "t0", Op.confirm "b" "tx1" "t1",
            Op.printing "b"]) id = some .printing) :=
  c2_queue_invariant_valid
    [Op.create "b" "cube" "t0", Op.confirm "b" "tx1" "t1", Op.printing "b"] (by decide)

/-- C3 counterexample: ShapeDescriptor{kind: cylinder, radius: -5} does not
fail with `InvalidDimension` — `generateSTL` has no dimension validation:
it builds the full 96-facet cylinder mesh, and it builds it with the
supplied radius -5 (the mesh differs from the default-radius one). -/
theorem c3_counterexample :
    (generateSTL { type := .cylinder, dimensions := { radius := some (-5) }, units := .mm }).length = 96 ∧
    generateSTL { type := .cylinder, dimensions := { radius := some (-5) }, units := .mm } ≠
      generateSTL { type := .cylinder, dimensions := {}, units := .mm } := by
  constructor
  · rw [generateSTL_length]; rfl
  · decide

/-- C3 (amended): the mesh builder never fails; there is no
`InvalidDimension` rejection anywhere.  For every descriptor of one of the
five supported kinds — whether or not explicitly supplied dimensions are
positive — it builds a non-empty mesh, using a supplied non-zero value
as-is (the valid-input half of the claim, "never fails for valid input",
does hold). -/
theorem c3_never_fails (t : ShapeType) (d : Dimensions)
    (h : t = .cube ∨ t = .cylinder ∨ t = .sphere ∨ t = .cone ∨ t = .torus) :
    0 < (generateSTL { type := t, dimensions := d, units := .mm }).length := by
  rw [generateSTL_length]
  rcases h with h | h | h | h | h <;> subst h <;> norm_num [facetCount]

theorem c3_never_fails_witness :
    0 < (generateSTL { type := .cylinder, dimensions := { radius := some (-5) }, units := .mm }).length :=
  c3_never_fails .cylinder { radius := some (-5) } (Or.inr (Or.inl rfl))

/-- C4 counterexample: for the `text` placeholder kind, `generateSTL` falls
through every shape branch and emits a mesh with zero facets — it does not
fall back to any default shape. -/
theorem c4_counterexample :
    generateSTL { type := .text, dimensions := {}, units := .mm } = [] := rfl

/-- C4 (amended): for every shape kind outside the five supported
primitives (the `text` and `custom` placeholders) the mesh builder emits
an empty facet list — a `solid model` block with zero triangles.  No
fallback shape is substituted in the builder; the documented cube fallback
lives only in `parsePrompt`. -/
theorem c4_unsupported_kind_empty (d : Dimensions) :
    generateSTL { type := .text, dimensions := d, units := .mm } = [] ∧
    generateSTL { type := .custom, dimensions := d, units := .mm } = [] := ⟨rfl, rfl⟩

/-- C5: `generateSTL` emits exactly 12 facets for every cube, exactly 96
for every cylinder (24 segments × (2 side + 1 top cap + 1 bottom cap)) and
exactly 48 for every cone (24 segments × (1 side + 1 base)), independent
of the dimension values. -/
theorem c5_facet_counts (d : Dimensions) :
    (generateSTL { type := .cube, dimensions := d, units := .mm }).length = 12 ∧
    (generateSTL { type := .cylinder, dimensions := d, units := .mm }).length = 96 ∧
    (generateSTL { type := .cone, dimensions := d, units := .mm }).length = 48 := by
  refine ⟨?_, ?_, ?_⟩ <;> rw [generateSTL_length] <;> rfl

/-- C6: for volumes v ≤ w with 0 ≤ v, the preview's estimate equals
`max(5, round(v × 1.5))`, is at least 5, and is monotone non-decreasing in
the volume. -/
theorem c6_estimate_formula (v w : ℚ) (_hv : 0 ≤ v) (hvw : v ≤ w) :
    estimatedMinutes v = max 5 (jsRound (v * 1.5)) ∧
    5 ≤ estimatedMinutes v ∧
    estimatedMinutes v ≤ estimatedMinutes w := by
  refine ⟨rfl, le_max_left _ _, ?_⟩
  have h1 : v * 1.5 + 1 / 2 ≤ w * 1.5 + 1 / 2 := by nlinarith
  exact max_le_max le_rfl (Int.floor_le_floor h1)

theorem c6_estimate_formula_witness :
    estimatedMinutes 2 = max 5 (jsRound (2 * 1.5)) ∧
    5 ≤ estimatedMinutes 2 ∧
    estimatedMinutes 2 ≤ estimatedMinutes 3 :=
  c6_estimate_formula 2 3 (by norm_num) (by norm_num)

/-- C7 counterexample: (i) a present-but-invalid dimension equal to 0 IS
replaced by the default — a cube with width 0 builds the same mesh as a
cube with width absent; (ii) the torus defaults are radius 30 and width
10, not the claimed 25mm radius / 50mm linear defaults. -/
theorem c7_counterexample :
    generateSTL { type := .cube, dimensions := { width := some 0 }, units := .mm } =
      generateSTL { type := .cube, dimensions := {}, units := .mm } ∧
    generateSTL { type := .torus, dimensions := {}, units := .mm } =
      generateSTL { type := .torus, dimensions := { radius := some 30, width := some 10 }, units := .mm } ∧
    generateSTL { type := .torus, dimensions := {}, units := .mm } ≠
      generateSTL { type := .torus, dimensions := { radius := some 25, width := some 50 }, units := .mm } := by
  refine ⟨rfl, rfl, by decide⟩

/-- C7 (amended): a dimension is replaced by its fixed default when it is
absent or present-but-zero (JavaScript `||` falsiness), and a present
non-zero value is used as-is even when invalid (negative).  The defaults
are 50 for the cube sides and the cylinder/cone heights, 25 for the
cylinder/sphere/cone radius, but 30 for the torus major radius and 10 for
the torus width (tube diameter). -/
theorem c7_dimension_defaults (q : ℚ) (hq : q ≠ 0) :
    (∀ dflt : ℚ, jsOrOpt none dflt = dflt) ∧
    (∀ dflt : ℚ, jsOrOpt (some 0) dflt = dflt) ∧
    (∀ dflt : ℚ, jsOrOpt (some q) dflt = q) ∧
    generateSTL { type := .cube, dimensions := {}, units := .mm } =
      generateSTL { type := .cube, dimensions := { width := some 50, height := some 50, depth := some 50 }, units := .mm } ∧
    generateSTL { type := .cylinder, dimensions := {}, units := .mm } =
      generateSTL { type := .cylinder, dimensions := { radius := some 25, height := some 50 }, units := .mm } ∧
    generateSTL { type := .sphere, dimensions := {}, units := .mm } =
      generateSTL { type := .sphere, dimensions := { radius := some 25 }, units := .mm } ∧
    generateSTL { type := .cone, dimensions := {}, units := .mm } =
      generateSTL { type := .cone, dimensions := { radius := some 25, height := some 50 }, units := .mm } ∧
    generateSTL { type := .torus, dimensions := {}, units := .mm } =
      generateSTL { type := .torus, dimensions := { radius := some 30, width := some 10 }, units := .mm } := by
  refine ⟨fun dflt => rfl, fun dflt => by simp [jsOrOpt], fun dflt => by simp [jsOrOpt, hq],
    rfl, rfl, rfl, rfl, rfl⟩

theorem c7_dimension_defaults_witness : jsOrOpt (some (-5)) 50 = -5 :=
  (c7_dimension_defaults (-5) (by norm_num)).2.2.1 50

/-- C8: the sphere mesh is the join over 12 latitude rings × 16 longitude
segments of cells holding exactly 1 facet in the two polar rings (i = 0 and
i = 11) and 2 facets in every interior ring; the torus mesh tessellates 16
rings around the major circle × 24 segments around the tube with 2 facets
per quad cell whose vertices are the spec's parametric surface points
`((R + r·cos v)·cos u, r·sin v, (R + r·cos v)·sin u)` with major radius
R = the shape's radius and tube radius r = width/2. -/
theorem c8_sphere_torus_tessellation (d : Dimensions) (rho w : ℚ)
    (hrho : d.radius = some rho) (hrho0 : rho ≠ 0) (hw : d.width = some w) (hw0 : w ≠ 0) :
    (∀ e : Dimensions, generateSTL { type := .sphere, dimensions := e, units := .mm } =
        (List.range 12).flatMap fun i => (List.range 16).flatMap fun j =>
          sphereCell (lit (jsOrOpt e.radius 25)) 12 16 i j) ∧
    (∀ r : Expr, ∀ i j : ℕ, i < 12 →
        (sphereCell r 12 16 i j).length = if i = 0 ∨ i = 11 then 1 else 2) ∧
    (generateSTL { type := .torus, dimensions := d, units := .mm }).map triVerts =
      ((List.range 16).flatMap fun i => (List.range 24).flatMap fun j =>
        torusSpecCellVerts (lit rho) (lit w / lit 2) i j) := by
  refine ⟨fun e => rfl, fun r i j hi => sphereCell_length r i j hi, ?_⟩
  have hR : jsOrOpt d.radius 30 = rho := by simp [jsOrOpt, hrho, hrho0]
  have hr : jsOrOpt d.width 10 = w := by simp [jsOrOpt, hw, hw0]
  calc (generateSTL { type := .torus, dimensions := d, units := .mm }).map triVerts
      = ((List.range 16).flatMap fun i => (List.range 24).flatMap fun j =>
          torusCell (lit (jsOrOpt d.radius 30)) (lit (jsOrOpt d.width 10) / lit 2)
            16 24 i j).map triVerts := rfl
    _ = (List.range 16).flatMap fun i => (List.range 24).flatMap fun j =>
          (torusCell (lit rho) (lit w / lit 2) 16 24 i j).map triVerts := by
          rw [hR, hr]
          simp [List.map_flatMap]
    _ = (List.range 16).flatMap fun i => (List.range 24).flatMap fun j =>
          torusSpecCellVerts (lit rho) (lit w / lit 2) i j := by
          simp only [torusCell_verts]

theorem c8_sphere_torus_tessellation_witness :
    (generateSTL { type := .torus, dimensions := { radius := some 40, width := some 6 }, units := .mm }).map triVerts =
      ((List.range 16).flatMap fun i => (List.range 24).flatMap fun j =>
        torusSpecCellVerts (lit 40) (lit 6 / lit 2) i j) :=
  (c8_sphere_torus_tessellation { radius := some 40, width := some 6 } 40 6 rfl
    (by norm_num) rfl (by norm_num)).2.2

/-- C9 counterexample: after payment confirmation the job document is
stored without any expiration — the confirm handler's `put` passes no
`expirationTtl`, which in Cloudflare KV replaces the 7-day expiring
document written at creation by a non-expiring one. -/
theorem c9_counterexample :
    ttlOf (confirmOrder (createOrder emptyKV "a" "cube" "t0") "a" "tx1" "t1").1 "a" =
      some none := by
  decide

/-- C9 (amended): only the order-creation `put` carries the 7-day TTL
(86400 × 7 seconds); the confirm, printing and complete handlers re-store
the job document with no expiration, so the 7-day retention window is lost
at the first lifecycle transition rather than holding independent of
status. -/
theorem c9_ttl_only_at_creation (s : KV) (id prompt tx now : String)
    (h : (getAssoc s.jobs id).isSome = true) :
    ttlOf (createOrder s id prompt now) id = some (some (86400 * 7)) ∧
    ttlOf (confirmOrder s id tx now).1 id = some none ∧
    ttlOf (markPrinting s id).1 id = some none ∧
    ttlOf (completeOrder s id now).1 id = some none := by
  obtain ⟨e, hg⟩ := Option.isSome_iff_exists.mp h
  obtain ⟨job, ttl⟩ := e
  refine ⟨?_, ?_, ?_, ?_⟩
  · simp [createOrder, ttlOf, getAssoc_putAssoc_self]
  · simp [confirmOrder, hg, ttlOf, getAssoc_putAssoc_self]
  · simp [markPrinting, hg, ttlOf, getAssoc_putAssoc_self]
  · simp [completeOrder, hg, ttlOf, getAssoc_putAssoc_self]

theorem c9_ttl_only_at_creation_witness :
    ttlOf (confirmOrder (createOrder emptyKV "b" "cube" "t0") "b" "tx" "t1").1 "b" =
      some none :=
  (c9_ttl_only_at_creation (createOrder emptyKV "b" "cube" "t0") "b" "cube" "tx" "t1"
    (by decide)).2.1

/-- C10: for every input string, `parsePrompt` returns one of the five
supported primitive kinds — never the `text` or `custom` placeholders —
with units mm; when no shape keyword and no dimension pattern is
recognized it returns the default 50×50×50 cube; hence `generateSTL`
applied to any parser output always takes a supported branch and emits a
non-empty mesh (the unsupported-kind branches, which would emit zero
facets, are unreachable from the parser). -/
theorem c10_parser_output_supported (s : String) :
    ((parsePrompt s).type = .cube ∨ (parsePrompt s).type = .cylinder ∨
      (parsePrompt s).type = .sphere ∨ (parsePrompt s).type = .cone ∨
      (parsePrompt s).type = .torus) ∧
    (parsePrompt s).units = .mm ∧
    0 < (generateSTL (parsePrompt s)).length ∧
    (anyShapeKeyword (lowerChars s) = false →
      firstSome matchDimAt (lowerChars s) = none →
      firstSome matchRadiusAt (lowerChars s) = none →
      firstSome matchSizeAt (lowerChars s) = none →
      parsePrompt s = { type := .cube, dimensions := { width := some 50, height := some 50, depth := some 50 }, units := .mm }) := by
  refine ⟨?_, ?_, ?_, ?_⟩
  · simp only [parsePrompt]
    split_ifs <;> simp
  · simp only [parsePrompt]
  · have h : ∃ t d, parsePrompt s = { type := t, dimensions := d, units := .mm } ∧
        (t = .cube ∨ t = .cylinder ∨ t = .sphere ∨ t = .cone ∨ t = .torus) := by
      simp only [parsePrompt]
      split_ifs <;> exact ⟨_, _, rfl, by simp⟩
    obtain ⟨t, d, hpp, ht⟩ := h
    rw [hpp, generateSTL_length]
    rcases ht with h | h | h | h | h <;> subst h <;> norm_num [facetCount]
  · intro hkw hd hr hs
    simp only [anyShapeKeyword, Bool.or_eq_false_iff] at hkw
    obtain ⟨⟨⟨⟨⟨⟨⟨⟨⟨⟨⟨⟨⟨⟨⟨k1, k2⟩, k3⟩, k4⟩, k5⟩, k6⟩, k7⟩, k8⟩, k9⟩, k10⟩,
      k11⟩, k12⟩, k13⟩, k14⟩, k15⟩, k16⟩ := hkw
    simp only [parsePrompt]
    rw [hd, hr, hs]
    simp [k1, k2, k3, k4, k5, k6, k7, k8, k9, k10, k11, k12, k13, k14, k15, k16]

theorem c10_parser_output_supported_witness :
    parsePrompt "hello" = { type := .cube, dimensions := { width := some 50, height := some 50, depth := some 50 }, units := .mm } :=
  (c10_parser_output_supported "hello").2.2.2 (by decide) (by decide) (by decide) (by decide)

end SbtcPrint
